import Mathlib

/-!
# FuelSync Data Verification Engine — shallow embedding and verification

This file embeds the Data Verification Engine (DVE) of the FuelSync
repository — the Supabase edge function that scores crowdsourced fuel
availability reports and runs the per-station consensus — as pure Lean
functions over an explicit store state, and proves the specification's
properties about it.

Numbers are modelled as real numbers; time is measured in hours.  The
store (stations, reports, trust scores, verified entries) is a record of
lists, and the handler for the `submit_report` action is a state
transformer.  The JavaScript truthiness tests used by the handler
(`!report.station_id`, `!station?.lat`, …) are modelled explicitly.
-/

open Classical

namespace FuelSync

/-- The `DVE_CONFIG` object literal: tunable constants of the engine. -/
structure DVEConfigT where
  INITIAL_TRUST_SCORE : ℝ
  TRUST_INCREMENT : ℝ
  TRUST_DECREMENT : ℝ
  MIN_TRUST_SCORE : ℝ
  MAX_TRUST_SCORE : ℝ
  TIME_DECAY_HALF_LIFE : ℝ
  MAX_REPORT_AGE_HOURS : ℝ
  MAX_DISTANCE_KM : ℝ
  OPTIMAL_DISTANCE_KM : ℝ
  MIN_REPORTS_FOR_CONSENSUS : ℕ
  CONSENSUS_THRESHOLD : ℝ
  CONSENSUS_BONUS : ℝ
  VERIFICATION_THRESHOLD : ℝ

/-- The configuration values of the source. -/
noncomputable def DVE_CONFIG : DVEConfigT where
  INITIAL_TRUST_SCORE := 0.5
  TRUST_INCREMENT := 0.05
  TRUST_DECREMENT := 0.1
  MIN_TRUST_SCORE := 0.1
  MAX_TRUST_SCORE := 1.0
  TIME_DECAY_HALF_LIFE := 24
  MAX_REPORT_AGE_HOURS := 168
  MAX_DISTANCE_KM := 2.0
  OPTIMAL_DISTANCE_KM := 0.5
  MIN_REPORTS_FOR_CONSENSUS := 2
  CONSENSUS_THRESHOLD := 0.6
  CONSENSUS_BONUS := 0.2
  VERIFICATION_THRESHOLD := 0.4

/-- `Math.atan2 y x` of JavaScript on the reals. -/
noncomputable def atan2 (y x : ℝ) : ℝ :=
  if 0 < x then Real.arctan (y / x)
  else if x < 0 then
    (if 0 ≤ y then Real.arctan (y / x) + Real.pi else Real.arctan (y / x) - Real.pi)
  else if 0 < y then Real.pi / 2
  else if y < 0 then -(Real.pi / 2)
  else 0

/-- `calculateDistance`: haversine great-circle distance in km. -/
noncomputable def calculateDistance (lat1 lon1 lat2 lon2 : ℝ) : ℝ :=
  let R : ℝ := 6371
  let dLat := (lat2 - lat1) * (Real.pi / 180)
  let dLon := (lon2 - lon1) * (Real.pi / 180)
  let a := Real.sin (dLat / 2) * Real.sin (dLat / 2) +
    Real.cos (lat1 * (Real.pi / 180)) * Real.cos (lat2 * (Real.pi / 180)) *
      (Real.sin (dLon / 2) * Real.sin (dLon / 2))
  R * 2 * atan2 (Real.sqrt a) (Real.sqrt (1 - a))

/-- `calculateTimeDecay`: exponential decay of a report's weight with age.
The source computes `ageHours` from `Date.now()` and the report timestamp;
here both instants are passed explicitly (in hours). -/
noncomputable def calculateTimeDecay (nowTime reportTimestamp : ℝ) : ℝ :=
  let ageHours := nowTime - reportTimestamp
  if ageHours > DVE_CONFIG.MAX_REPORT_AGE_HOURS then 0
  else (0.5 : ℝ) ^ (ageHours / DVE_CONFIG.TIME_DECAY_HALF_LIFE)

/-- Result record of `calculateLocationFactor`. -/
structure LocationResult where
  factor : ℝ
  distance : ℝ
  isValid : Bool

/-- `calculateLocationFactor`: proximity multiplier and validity gate. -/
noncomputable def calculateLocationFactor (userLat userLon stationLat stationLon : ℝ) :
    LocationResult :=
  let distance := calculateDistance userLat userLon stationLat stationLon
  if distance > DVE_CONFIG.MAX_DISTANCE_KM then ⟨0, distance, false⟩
  else if distance ≤ DVE_CONFIG.OPTIMAL_DISTANCE_KM then ⟨1.0, distance, true⟩
  else
    ⟨max 0 (1 - (distance - DVE_CONFIG.OPTIMAL_DISTANCE_KM) /
        (DVE_CONFIG.MAX_DISTANCE_KM - DVE_CONFIG.OPTIMAL_DISTANCE_KM)), distance, true⟩

/-- Renders an integer in `[0, 100)` with two digits, as the fractional
part of JavaScript's `toFixed(2)` does. -/
def twoDigits (m : ℤ) : String :=
  if m < 10 then "0" ++ toString m else toString m

/-- `x.toFixed(2)` of JavaScript for nonnegative finite `x`: round to the
nearest hundredth (half up) and print with exactly two decimals. -/
noncomputable def toFixed2 (x : ℝ) : String :=
  toString (⌊x * 100 + 1 / 2⌋ / 100) ++ "." ++ twoDigits (⌊x * 100 + 1 / 2⌋ % 100)

/-- A row of the `fuel_stations` table (the part the engine reads);
`lat`/`lon` are nullable columns. -/
structure Station where
  id : String
  lat : Option ℝ
  lon : Option ℝ

/-- A row of the `crowdsourced_reports` table. -/
structure Report where
  id : ℕ
  station_id : String
  anonymous_user_id : String
  fuel_type : String
  user_lat : ℝ
  user_lon : ℝ
  trust_score_at_submission : ℝ
  time_decay_factor : ℝ
  location_factor : ℝ
  dve_score : ℝ
  is_rejected : Bool
  rejection_reason : Option String
  is_verified : Bool
  timestamp : ℝ

/-- A row of the `user_trust_scores` table. -/
structure TrustRow where
  anonymous_user_id : String
  trust_score : ℝ

/-- A row of the `verified_fuel_data` table. -/
structure VerifiedEntry where
  station_id : String
  fuel_type : String
  is_available : Bool
  confidence_score : ℝ
  verified_by_count : ℕ
  last_verified_at : ℝ

/-- The store the edge function reads and writes.  `nextId` models the
autoincrementing primary key of `crowdsourced_reports`. -/
structure DVEState where
  stations : List Station
  reports : List Report
  trustScores : List TrustRow
  verified : List VerifiedEntry
  nextId : ℕ

/-- The `report` object of a `submit_report` request; every field may be
absent. -/
structure SubmitRequest where
  station_id : Option String
  fuel_type : Option String
  anonymous_user_id : Option String
  user_lat : Option ℝ
  user_lon : Option ℝ

/-- The `dveResult` payload of a successful `submit_report` response. -/
structure DveResult where
  score : ℝ
  trustScore : ℝ
  timeDecay : ℝ
  locationFactor : ℝ
  isRejected : Bool
  rejectionReason : Option String

/-- Response of the `submit_report` action: a success body, or an error
body with an HTTP status. -/
inductive SubmitResponse where
  | ok (reportId : ℕ) (dveResult : DveResult)
  | error (status : ℕ) (message : String)

/-- JavaScript truthiness of an optional string field: absent and `""`
are falsy. -/
def strFalsy : Option String → Bool
  | none => true
  | some s => s == ""

/-- JavaScript truthiness of a nullable numeric column (`station?.lat`):
absent and `0` are falsy. -/
noncomputable def coordTruthy : Option ℝ → Bool
  | none => false
  | some x => decide (x ≠ 0)

/-- The consensus window: non-rejected reports of the station whose
timestamp is at least `now - MAX_REPORT_AGE_HOURS`. -/
noncomputable def consensusWindow (now : ℝ) (stationId : String) (reports : List Report) :
    List Report :=
  reports.filter (fun r =>
    r.station_id == stationId && !r.is_rejected &&
      decide (now - DVE_CONFIG.MAX_REPORT_AGE_HOURS ≤ r.timestamp))

/-- The windowed reports of one fuel type (one entry of `fuelTypeReports`). -/
def fuelGroup (windowed : List Report) (ft : String) : List Report :=
  windowed.filter (fun r => r.fuel_type == ft)

/-- `new Set(fuelReports.map(r => r.anonymous_user_id)).size`. -/
def uniqueUserCount (group : List Report) : ℕ :=
  ((group.map (fun r => r.anonymous_user_id)).dedup).length

/-- The final confidence of a group: mean `dve_score` plus the consensus
bonus, capped at `1.0`. -/
noncomputable def groupFinalScore (group : List Report) : ℝ :=
  min 1.0 ((group.map (fun r => r.dve_score)).sum / (group.length : ℝ) +
    DVE_CONFIG.CONSENSUS_BONUS)

/-- Upsert into `verified_fuel_data` with conflict key
`station_id,fuel_type`: replace the matching rows, or append. -/
def upsertVerified (stationId fuelType : String) (conf : ℝ) (cnt : ℕ) (now : ℝ)
    (l : List VerifiedEntry) : List VerifiedEntry :=
  if l.any (fun e => e.station_id == stationId && e.fuel_type == fuelType) then
    l.map (fun e =>
      if e.station_id == stationId && e.fuel_type == fuelType then
        ⟨stationId, fuelType, true, conf, cnt, now⟩
      else e)
  else l ++ [⟨stationId, fuelType, true, conf, cnt, now⟩]

/-- Set `is_verified` on every report whose id occurs in the group. -/
def markGroupVerified (group : List Report) (reports : List Report) : List Report :=
  reports.map (fun r =>
    if (group.map (fun g => g.id)).contains r.id then { r with is_verified := true } else r)

/-- Body of the consensus loop for one fuel type. -/
noncomputable def applyGroup (now : ℝ) (stationId : String) (windowed : List Report)
    (st : DVEState) (ft : String) : DVEState :=
  let group := fuelGroup windowed ft
  if DVE_CONFIG.MIN_REPORTS_FOR_CONSENSUS ≤ uniqueUserCount group then
    if DVE_CONFIG.VERIFICATION_THRESHOLD ≤ groupFinalScore group then
      { st with
        verified := upsertVerified stationId ft (groupFinalScore group)
          (uniqueUserCount group) now st.verified,
        reports := markGroupVerified group st.reports }
    else st
  else st

/-- The consensus check run after a report insert: early exit when the
window is too small, otherwise process every fuel type of the window. -/
noncomputable def consensusRun (now : ℝ) (stationId : String) (st : DVEState) : DVEState :=
  let windowed := consensusWindow now stationId st.reports
  if DVE_CONFIG.MIN_REPORTS_FOR_CONSENSUS ≤ windowed.length then
    ((windowed.map (fun r => r.fuel_type)).dedup).foldl (applyGroup now stationId windowed) st
  else st

/-- Get-or-create of the submitter's trust score: the current value and
the trust table after the lazy insert (lines 78–90 of the handler). -/
noncomputable def resolveTrust (uid : String) (rows : List TrustRow) : ℝ × List TrustRow :=
  match rows.find? (fun t => t.anonymous_user_id == uid) with
  | some t => (t.trust_score, rows)
  | none => (DVE_CONFIG.INITIAL_TRUST_SCORE,
      rows ++ [⟨uid, DVE_CONFIG.INITIAL_TRUST_SCORE⟩])

/-- The rejection reason built by the handler: the template literal
`User too far from station (${distance.toFixed(2)}km)`. -/
noncomputable def rejectionMessage (d : ℝ) : String :=
  "User too far from station (" ++ toFixed2 d ++ "km)"

/-- The scoring, report insert and consensus trigger of `submit_report`,
after validation and station resolution succeeded. -/
noncomputable def processSubmission (now : ℝ) (sid ft uid : String)
    (uLat uLon sLat sLon : ℝ) (st : DVEState) : SubmitResponse × DVEState :=
  let trustScore := (resolveTrust uid st.trustScores).1
  let timeDecay := calculateTimeDecay now now
  let locationResult := calculateLocationFactor uLat uLon sLat sLon
  let isRejected := !locationResult.isValid
  let rejectionReason : Option String :=
    if locationResult.isValid then none
    else some (rejectionMessage locationResult.distance)
  let dveScore : ℝ :=
    if locationResult.isValid then trustScore * timeDecay * locationResult.factor else 0
  let newReport : Report :=
    { id := st.nextId, station_id := sid, anonymous_user_id := uid,
      fuel_type := ft, user_lat := uLat, user_lon := uLon,
      trust_score_at_submission := trustScore, time_decay_factor := timeDecay,
      location_factor := locationResult.factor, dve_score := dveScore,
      is_rejected := isRejected, rejection_reason := rejectionReason,
      is_verified := false, timestamp := now }
  let st1 : DVEState :=
    { st with trustScores := (resolveTrust uid st.trustScores).2,
              reports := st.reports ++ [newReport],
              nextId := st.nextId + 1 }
  (.ok st.nextId
    { score := dveScore, trustScore := trustScore, timeDecay := timeDecay,
      locationFactor := locationResult.factor, isRejected := isRejected,
      rejectionReason := rejectionReason },
    consensusRun now sid st1)

/-- The `submit_report` branch of the edge function: validation, station
lookup with JavaScript-truthy coordinate check, then scoring, report
insert, and the consensus run. -/
noncomputable def submitReport (now : ℝ) (req : SubmitRequest) (st : DVEState) :
    SubmitResponse × DVEState :=
  if strFalsy req.station_id || strFalsy req.fuel_type || strFalsy req.anonymous_user_id
      || req.user_lat.isNone || req.user_lon.isNone then
    (.error 400 "Missing required fields", st)
  else
    match st.stations.find? (fun s => s.id == req.station_id.getD "") with
    | none => (.error 404 "Station not found or missing coordinates", st)
    | some station =>
      if !coordTruthy station.lat || !coordTruthy station.lon then
        (.error 404 "Station not found or missing coordinates", st)
      else
        processSubmission now (req.station_id.getD "") (req.fuel_type.getD "")
          (req.anonymous_user_id.getD "") (req.user_lat.getD 0) (req.user_lon.getD 0)
          (station.lat.getD 0) (station.lon.getD 0) st

/-- Response body of the `get_admin_data` action. -/
structure AdminData where
  reports : List Report
  trustScores : List TrustRow
  verifiedData : List VerifiedEntry
  config : DVEConfigT

/-- The `get_admin_data` branch: the 100 most recent reports (timestamp
descending), all trust scores, all verified entries, and the config. -/
noncomputable def getAdminData (st : DVEState) : AdminData :=
  { reports := (st.reports.mergeSort (fun a b => decide (b.timestamp ≤ a.timestamp))).take 100,
    trustScores := st.trustScores,
    verifiedData := st.verified,
    config := DVE_CONFIG }

/-! ## Basic evaluation lemmas -/

theorem calculateDistance_self (lat lon : ℝ) : calculateDistance lat lon lat lon = 0 := by
  simp [calculateDistance, atan2]

theorem calculateTimeDecay_self (t : ℝ) : calculateTimeDecay t t = 1 := by
  have : ¬ ((t - t : ℝ) > DVE_CONFIG.MAX_REPORT_AGE_HOURS) := by
    norm_num [DVE_CONFIG]
  rw [calculateTimeDecay, if_neg this]
  norm_num [Real.rpow_zero]

theorem calculateLocationFactor_self (uLat uLon : ℝ) :
    calculateLocationFactor uLat uLon uLat uLon = ⟨1.0, 0, true⟩ := by
  rw [calculateLocationFactor, calculateDistance_self]
  rw [if_neg (by norm_num [DVE_CONFIG]), if_pos (by norm_num [DVE_CONFIG])]

theorem calculateDistance_far : calculateDistance 0 90 90 90 = 6371 * Real.pi / 2 := by
  have e1 : ((90 : ℝ) - 0) * (Real.pi / 180) / 2 = Real.pi / 4 := by ring
  have e2 : ((90 : ℝ) - 90) * (Real.pi / 180) / 2 = 0 := by ring
  have hs : Real.sin (Real.pi / 4) * Real.sin (Real.pi / 4) = 1 / 2 := by
    rw [Real.sin_pi_div_four, div_mul_div_comm,
      Real.mul_self_sqrt (by norm_num : (0 : ℝ) ≤ 2)]
    norm_num
  simp only [calculateDistance, e1, e2, Real.sin_zero, mul_zero, zero_mul, add_zero, hs]
  have h12 : (1 : ℝ) - 1 / 2 = 1 / 2 := by norm_num
  rw [h12]
  have hpos : 0 < Real.sqrt (1 / 2) := Real.sqrt_pos.mpr (by norm_num)
  rw [atan2, if_pos hpos, div_self hpos.ne', Real.arctan_one]
  ring

theorem calculateLocationFactor_far :
    calculateLocationFactor 0 90 90 90 = ⟨0, 6371 * Real.pi / 2, false⟩ := by
  rw [calculateLocationFactor, calculateDistance_far]
  rw [if_pos]
  have := Real.pi_gt_three
  norm_num [DVE_CONFIG]
  nlinarith

theorem locationFactor_bounds (uLat uLon sLat sLon : ℝ) :
    0 ≤ (calculateLocationFactor uLat uLon sLat sLon).factor ∧
    (calculateLocationFactor uLat uLon sLat sLon).factor ≤ 1 ∧
    ((calculateLocationFactor uLat uLon sLat sLon).isValid = false →
      (calculateLocationFactor uLat uLon sLat sLon).factor = 0) := by
  have h2 : DVE_CONFIG.MAX_DISTANCE_KM = 2 := by norm_num [DVE_CONFIG]
  have h05 : DVE_CONFIG.OPTIMAL_DISTANCE_KM = 0.5 := by norm_num [DVE_CONFIG]
  rw [calculateLocationFactor, h2, h05]
  set d := calculateDistance uLat uLon sLat sLon with hd
  split_ifs with hgt hle
  · exact ⟨le_refl 0, by norm_num, fun _ => rfl⟩
  · exact ⟨by norm_num, by norm_num, by simp⟩
  · refine ⟨le_max_left 0 _, ?_, by simp⟩
    have hgt' : (0.5 : ℝ) < d := lt_of_not_le hle
    have : (1 : ℝ) - (d - 0.5) / (2 - 0.5) ≤ 1 := by
      have : 0 < (d - 0.5) / (2 - 0.5) := div_pos (by linarith) (by norm_num)
      linarith
    exact max_le (by norm_num) this

/-! ## Claims C4 and C5 -/

/-- C4: for coordinates at haversine distance `d`, the location factor is
`0` and invalid when `d > 2.0`, `1.0` and valid when `d ≤ 0.5`, and
otherwise the linear interpolation `1 - (d - 0.5)/(2.0 - 0.5)` (the
`max 0` clamp being inactive there), valid, strictly decreasing from
`1.0` at `0.5` to `0.0` at `2.0`. -/
theorem location_factor_piecewise (uLat uLon sLat sLon d : ℝ)
    (hd : calculateDistance uLat uLon sLat sLon = d) :
    ((2 : ℝ) < d → calculateLocationFactor uLat uLon sLat sLon = ⟨0, d, false⟩) ∧
    (d ≤ (0.5 : ℝ) → calculateLocationFactor uLat uLon sLat sLon = ⟨1.0, d, true⟩) ∧
    ((0.5 : ℝ) < d → d ≤ 2 →
      calculateLocationFactor uLat uLon sLat sLon =
        ⟨1 - (d - 0.5) / (2 - 0.5), d, true⟩ ∧
      (∀ d₁ d₂ : ℝ, (0.5 : ℝ) < d₁ → d₁ < d₂ → d₂ ≤ 2 →
        1 - (d₂ - 0.5) / (2 - 0.5) < 1 - (d₁ - 0.5) / (2 - 0.5))) := by
  have h2 : DVE_CONFIG.MAX_DISTANCE_KM = 2 := by norm_num [DVE_CONFIG]
  have h05 : DVE_CONFIG.OPTIMAL_DISTANCE_KM = 0.5 := by norm_num [DVE_CONFIG]
  rw [calculateLocationFactor, hd, h2, h05]
  refine ⟨fun hgt => ?_, fun hle => ?_, fun hgt hle => ?_⟩
  · rw [if_pos (by exact_mod_cast hgt)]
  · rw [if_neg (by norm_num; linarith), if_pos (by exact_mod_cast hle)]
  · constructor
    · rw [if_neg (by norm_num; linarith), if_neg (by exact_mod_cast not_le.mpr hgt)]
      have hge : (0 : ℝ) ≤ 1 - (d - 0.5) / (2 - 0.5) := by
        rw [sub_nonneg, div_le_one (by norm_num)]
        linarith
      rw [max_eq_right hge]
    · intro d₁ d₂ h₁ h₁₂ h₂'
      have : (d₁ - 0.5) / (2 - 0.5) < (d₂ - 0.5) / (2 - 0.5) :=
        (div_lt_div_iff_of_pos_right (by norm_num : (0 : ℝ) < 2 - 0.5)).mpr (by linarith)
      linarith

/-- Witness for C4 at a concrete input: identical submitter and station
coordinates give distance `0 ≤ 0.5`, hence factor `1.0` and a valid flag. -/
theorem location_factor_piecewise_witness :
    (0 : ℝ) ≤ 0.5 ∧ calculateLocationFactor 0 0 0 0 = ⟨1.0, 0, true⟩ :=
  ⟨by norm_num,
    (location_factor_piecewise 0 0 0 0 0 (calculateDistance_self 0 0)).2.1 (by norm_num)⟩

/-- C5: for report age `a = now - ts` hours, the decay is
`0.5 ^ (a / 24)` when `a ≤ 168`, equals `1` at age `0`, is strictly
decreasing in the age on that range, and is `0` for `a > 168`. -/
theorem time_decay_spec (now ts : ℝ) :
    (now - ts ≤ 168 → calculateTimeDecay now ts = (0.5 : ℝ) ^ ((now - ts) / 24)) ∧
    (now - ts = 0 → calculateTimeDecay now ts = 1) ∧
    (168 < now - ts → calculateTimeDecay now ts = 0) ∧
    (∀ now' ts' : ℝ, now - ts < now' - ts' → now' - ts' ≤ 168 →
      calculateTimeDecay now' ts' < calculateTimeDecay now ts) := by
  have h168 : DVE_CONFIG.MAX_REPORT_AGE_HOURS = 168 := by norm_num [DVE_CONFIG]
  have h24 : DVE_CONFIG.TIME_DECAY_HALF_LIFE = 24 := by norm_num [DVE_CONFIG]
  refine ⟨fun hle => ?_, fun h0 => ?_, fun hgt => ?_, fun now' ts' hlt hle => ?_⟩
  · rw [calculateTimeDecay, h168, h24, if_neg (not_lt.mpr hle)]
  · rw [calculateTimeDecay, h168, h24, if_neg (by rw [h0]; norm_num), h0]
    norm_num [Real.rpow_zero]
  · rw [calculateTimeDecay, h168, h24, if_pos hgt]
  · rw [calculateTimeDecay, calculateTimeDecay, h168, h24,
      if_neg (not_lt.mpr hle), if_neg (not_lt.mpr (by linarith))]
    apply Real.rpow_lt_rpow_of_exponent_gt (by norm_num) (by norm_num)
    linarith

/-- Witness for C5 at concrete ages: the formula at age `24`, the value
`1` at age `0`, the value `0` at age `200 > 168`, and strictness between
ages `24` and `48`. -/
theorem time_decay_spec_witness :
    calculateTimeDecay 24 0 = (0.5 : ℝ) ^ (((24 : ℝ) - 0) / 24) ∧
    calculateTimeDecay 0 0 = 1 ∧
    calculateTimeDecay 200 0 = 0 ∧
    calculateTimeDecay 48 0 < calculateTimeDecay 24 0 :=
  ⟨(time_decay_spec 24 0).1 (by norm_num),
    (time_decay_spec 0 0).2.1 (by norm_num),
    (time_decay_spec 200 0).2.2.1 (by norm_num),
    (time_decay_spec 24 0).2.2.2 48 0 (by norm_num) (by norm_num)⟩

/-! ## Branch lemmas for `submitReport` -/

theorem submitReport_found (now : ℝ) (st : DVEState) (sid ft uid : String) (uLat uLon : ℝ)
    (station : Station) (sLat sLon : ℝ)
    (hsid : sid ≠ "") (hft : ft ≠ "") (huid : uid ≠ "")
    (hfind : st.stations.find? (fun s => s.id == sid) = some station)
    (hlat : station.lat = some sLat) (hlon : station.lon = some sLon)
    (hlat0 : sLat ≠ 0) (hlon0 : sLon ≠ 0) :
    submitReport now ⟨some sid, some ft, some uid, some uLat, some uLon⟩ st =
      processSubmission now sid ft uid uLat uLon sLat sLon st := by
  simp [submitReport, strFalsy, hsid, hft, huid, hfind, coordTruthy, hlat, hlon, hlat0, hlon0]

/-! ## Claims C7 and C10 -/

/-- C7: a `submit_report` request missing any required field gets the 400
validation error and leaves the store untouched; a well-formed request
naming an unknown station, or a station whose stored latitude or
longitude is absent, gets the 404 not-found error and leaves the store
untouched. -/
theorem submit_error_paths (now : ℝ) (req : SubmitRequest) (st : DVEState) :
    ((req.station_id = none ∨ req.fuel_type = none ∨ req.anonymous_user_id = none ∨
        req.user_lat = none ∨ req.user_lon = none) →
      submitReport now req st = (SubmitResponse.error 400 "Missing required fields", st)) ∧
    (∀ (sid ft uid : String) (uLat uLon : ℝ),
      req = ⟨some sid, some ft, some uid, some uLat, some uLon⟩ →
      sid ≠ "" → ft ≠ "" → uid ≠ "" →
      (st.stations.find? (fun s => s.id == sid) = none ∨
        (∃ s, st.stations.find? (fun s' => s'.id == sid) = some s ∧
          (s.lat = none ∨ s.lon = none))) →
      submitReport now req st =
        (SubmitResponse.error 404 "Station not found or missing coordinates", st)) := by
  constructor
  · intro h
    rcases h with h | h | h | h | h <;> simp [submitReport, strFalsy, h]
  · intro sid ft uid uLat uLon hreq hsid hft huid hsta
    subst hreq
    rcases hsta with hnone | ⟨s, hfind, hcoord⟩
    · simp [submitReport, strFalsy, hsid, hft, huid, hnone]
    · rcases hcoord with h | h <;>
        simp [submitReport, strFalsy, hsid, hft, huid, hfind, coordTruthy, h]

/-- Witness for C7: a request missing its station id gets the 400 error,
and a well-formed request against an empty station table gets the 404
error; in both cases the state is returned unchanged. -/
theorem submit_error_paths_witness :
    submitReport 0 ⟨none, some "Diesel", some "u1", some 1, some 1⟩ ⟨[], [], [], [], 0⟩ =
      (SubmitResponse.error 400 "Missing required fields", ⟨[], [], [], [], 0⟩) ∧
    submitReport 0 ⟨some "s9", some "Diesel", some "u1", some 1, some 1⟩ ⟨[], [], [], [], 0⟩ =
      (SubmitResponse.error 404 "Station not found or missing coordinates",
        ⟨[], [], [], [], 0⟩) :=
  ⟨(submit_error_paths 0 ⟨none, some "Diesel", some "u1", some 1, some 1⟩
      ⟨[], [], [], [], 0⟩).1 (Or.inl rfl),
    (submit_error_paths 0 ⟨some "s9", some "Diesel", some "u1", some 1, some 1⟩
      ⟨[], [], [], [], 0⟩).2 "s9" "Diesel" "u1" 1 1 rfl (by decide) (by decide) (by decide)
      (Or.inl rfl)⟩

/-- C10: a well-formed request whose resolved station stores latitude `0`
or longitude `0` is answered with the 404 "Station not found or missing
coordinates" error and nothing is persisted, because the JavaScript
truthiness test on the coordinates treats `0` as absent. -/
theorem zero_coordinate_not_found (now : ℝ) (st : DVEState) (sid ft uid : String)
    (uLat uLon : ℝ) (s : Station)
    (hsid : sid ≠ "") (hft : ft ≠ "") (huid : uid ≠ "")
    (hfind : st.stations.find? (fun s' => s'.id == sid) = some s)
    (hzero : s.lat = some 0 ∨ s.lon = some 0) :
    submitReport now ⟨some sid, some ft, some uid, some uLat, some uLon⟩ st =
      (SubmitResponse.error 404 "Station not found or missing coordinates", st) := by
  rcases hzero with h | h <;>
    simp [submitReport, strFalsy, hsid, hft, huid, hfind, coordTruthy, h]

/-- Witness for C10: a station stored at latitude `0` (equator) with a
normal longitude is reported as not found and the state is unchanged. -/
theorem zero_coordinate_not_found_witness :
    submitReport 0 ⟨some "s1", some "Diesel", some "u1", some 1, some 1⟩
        ⟨[⟨"s1", some 0, some 50⟩], [], [], [], 0⟩ =
      (SubmitResponse.error 404 "Station not found or missing coordinates",
        ⟨[⟨"s1", some 0, some 50⟩], [], [], [], 0⟩) :=
  zero_coordinate_not_found 0 ⟨[⟨"s1", some 0, some 50⟩], [], [], [], 0⟩ "s1" "Diesel" "u1"
    1 1 ⟨"s1", some 0, some 50⟩ (by decide) (by decide) (by decide) rfl (Or.inl rfl)

/-! ## Consensus-layer lemmas -/

theorem foldl_invariant {α β : Type} (f : β → α → β) (P : β → Prop) (l : List α) (init : β)
    (h : ∀ x ∈ l, ∀ acc, P acc → P (f acc x)) (hinit : P init) : P (l.foldl f init) := by
  induction l generalizing init with
  | nil => exact hinit
  | cons a t ih =>
    exact ih (f init a) (fun x hx => h x (List.mem_cons_of_mem a hx))
      (h a (List.mem_cons_self a t) init hinit)

theorem mem_upsertVerified_self (sid ft : String) (conf : ℝ) (cnt : ℕ) (now : ℝ)
    (l : List VerifiedEntry) :
    (⟨sid, ft, true, conf, cnt, now⟩ : VerifiedEntry) ∈ upsertVerified sid ft conf cnt now l := by
  rw [upsertVerified]
  split_ifs with hany
  · obtain ⟨e, he, hpe⟩ := List.any_eq_true.mp hany
    refine List.mem_map.mpr ⟨e, he, ?_⟩
    rw [if_pos hpe]
  · exact List.mem_append_right _ (List.mem_singleton.mpr rfl)

theorem mem_upsertVerified_of_ne (sid ft' : String) (conf : ℝ) (cnt : ℕ) (now : ℝ)
    (l : List VerifiedEntry) (e : VerifiedEntry) (he : e ∈ l) (hne : e.fuel_type ≠ ft') :
    e ∈ upsertVerified sid ft' conf cnt now l := by
  rw [upsertVerified]
  have hcond : (e.station_id == sid && e.fuel_type == ft') = false := by
    simp [hne]
  split_ifs with hany
  · refine List.mem_map.mpr ⟨e, he, ?_⟩
    rw [if_neg (by simp [hcond])]
  · exact List.mem_append_left _ he

theorem filter_upsertVerified_ne (sid sid' ft ft' : String) (hne : ft' ≠ ft) (conf : ℝ)
    (cnt : ℕ) (now : ℝ) (l : List VerifiedEntry) :
    (upsertVerified sid' ft' conf cnt now l).filter
        (fun e => e.station_id == sid && e.fuel_type == ft) =
      l.filter (fun e => e.station_id == sid && e.fuel_type == ft) := by
  rw [upsertVerified]
  split_ifs with hany
  · clear hany
    induction l with
    | nil => rfl
    | cons a t ih =>
      rw [List.map_cons, List.filter_cons, List.filter_cons]
      by_cases hca : (a.station_id == sid' && a.fuel_type == ft') = true
      · rw [if_pos hca]
        have hpa : (a.station_id == sid && a.fuel_type == ft) = false := by
          have : a.fuel_type = ft' := by
            have := (Bool.and_eq_true _ _).mp hca
            exact beq_iff_eq.mp this.2
          simp [this, hne]
        have hpnew : ((⟨sid', ft', true, conf, cnt, now⟩ : VerifiedEntry).station_id == sid &&
            (⟨sid', ft', true, conf, cnt, now⟩ : VerifiedEntry).fuel_type == ft) = false := by
          simp [hne]
        rw [hpnew, hpa]
        simp only [Bool.false_eq_true, if_false]
        exact ih
      · rw [if_neg hca]
        by_cases hpa : (a.station_id == sid && a.fuel_type == ft) = true
        · rw [hpa]
          simp only [if_true]
          rw [ih]
        · rw [Bool.eq_false_iff.mpr hpa]
          simp only [Bool.false_eq_true, if_false]
          exact ih
  · rw [List.filter_append]
    have : (List.filter (fun e => e.station_id == sid && e.fuel_type == ft)
        [(⟨sid', ft', true, conf, cnt, now⟩ : VerifiedEntry)]) = [] := by
      have hft : (ft' == ft) = false := beq_eq_false_iff_ne.mpr hne
      simp [List.filter, hft]
    rw [this, List.append_nil]

theorem markGroupVerified_marks (g reps : List Report) :
    ∀ r' ∈ markGroupVerified g reps, r'.id ∈ g.map (fun r => r.id) → r'.is_verified = true := by
  intro r' hr' hid
  obtain ⟨r₀, _, hr₀⟩ := List.mem_map.mp hr'
  by_cases hc : ((g.map (fun x => x.id)).contains r₀.id) = true
  · rw [if_pos hc] at hr₀
    rw [← hr₀]
  · rw [if_neg hc] at hr₀
    subst hr₀
    exact absurd (List.elem_iff.mpr hid) hc

theorem markGroupVerified_mono (g reps : List Report) (Q : ℕ → Prop)
    (h : ∀ r ∈ reps, Q r.id → r.is_verified = true) :
    ∀ r' ∈ markGroupVerified g reps, Q r'.id → r'.is_verified = true := by
  intro r' hr' hq
  obtain ⟨r₀, hr₀mem, hr₀⟩ := List.mem_map.mp hr'
  by_cases hc : ((g.map (fun x => x.id)).contains r₀.id) = true
  · rw [if_pos hc] at hr₀
    rw [← hr₀]
  · rw [if_neg hc] at hr₀
    subst hr₀
    exact h r₀ hr₀mem hq

theorem uniqueUserCount_le_length (g : List Report) : uniqueUserCount g ≤ g.length := by
  calc uniqueUserCount g ≤ (g.map (fun r => r.anonymous_user_id)).length :=
        (List.dedup_sublist _).length_le
    _ = g.length := List.length_map _ _

/-! ## Claims C2 and C3 -/

/-- C2: whenever a fuel-type group of the consensus window has at least
`MIN_REPORTS_FOR_CONSENSUS = 2` distinct submitters and its final score
`min(1.0, mean dve_score + CONSENSUS_BONUS)` reaches
`VERIFICATION_THRESHOLD = 0.4`, the consensus run puts the verified
entry — availability `true`, confidence equal to that final score,
verified-by count equal to the distinct-submitter count, last-verified
equal to `now` — into the store, and every report of the group is marked
`is_verified`. -/
theorem consensus_verifies_group (now : ℝ) (sid ft : String) (st : DVEState)
    (h2 : DVE_CONFIG.MIN_REPORTS_FOR_CONSENSUS ≤
      uniqueUserCount (fuelGroup (consensusWindow now sid st.reports) ft))
    (hth : DVE_CONFIG.VERIFICATION_THRESHOLD ≤
      groupFinalScore (fuelGroup (consensusWindow now sid st.reports) ft)) :
    (⟨sid, ft, true,
        groupFinalScore (fuelGroup (consensusWindow now sid st.reports) ft),
        uniqueUserCount (fuelGroup (consensusWindow now sid st.reports) ft), now⟩ :
      VerifiedEntry) ∈ (consensusRun now sid st).verified ∧
    ∀ r' ∈ (consensusRun now sid st).reports,
      r'.id ∈ (fuelGroup (consensusWindow now sid st.reports) ft).map (fun r => r.id) →
      r'.is_verified = true := by
  have hmin : DVE_CONFIG.MIN_REPORTS_FOR_CONSENSUS = 2 := rfl
  set w := consensusWindow now sid st.reports with hw
  set g := fuelGroup w ft with hg
  have hglen : 2 ≤ g.length := by
    calc 2 = DVE_CONFIG.MIN_REPORTS_FOR_CONSENSUS := hmin.symm
      _ ≤ uniqueUserCount g := h2
      _ ≤ g.length := uniqueUserCount_le_length g
  have hwlen : DVE_CONFIG.MIN_REPORTS_FOR_CONSENSUS ≤ w.length := by
    rw [hmin]
    calc 2 ≤ g.length := hglen
      _ ≤ w.length := List.length_filter_le _ _
  have hftmem : ft ∈ (w.map (fun r => r.fuel_type)).dedup := by
    obtain ⟨r, hr⟩ := List.exists_mem_of_length_pos (by omega : 0 < g.length)
    obtain ⟨hrw, hrft⟩ := List.mem_filter.mp hr
    rw [List.mem_dedup]
    exact List.mem_map.mpr ⟨r, hrw, beq_iff_eq.mp hrft⟩
  simp only [consensusRun]
  rw [if_pos hwlen]
  obtain ⟨l₁, l₂, hsplit⟩ := List.append_of_mem hftmem
  have hnodup := List.nodup_dedup (w.map (fun r => r.fuel_type))
  rw [hsplit] at hnodup
  have hftnot : ft ∉ l₂ := ((List.nodup_append.mp hnodup).2.1.not_mem ·)
  rw [hsplit, List.foldl_append, List.foldl_cons]
  set acc₁ := List.foldl (applyGroup now sid w) st l₁ with hacc₁
  have hstep : applyGroup now sid w acc₁ ft =
      { acc₁ with
        verified := upsertVerified sid ft (groupFinalScore g) (uniqueUserCount g) now
          acc₁.verified,
        reports := markGroupVerified g acc₁.reports } := by
    rw [applyGroup]
    rw [if_pos h2, if_pos hth]
  rw [hstep]
  have hP : ∀ acc : DVEState,
      ((⟨sid, ft, true, groupFinalScore g, uniqueUserCount g, now⟩ : VerifiedEntry) ∈
          acc.verified ∧
        ∀ r' ∈ acc.reports, r'.id ∈ g.map (fun r => r.id) → r'.is_verified = true) →
      ∀ x ∈ l₂,
      ((⟨sid, ft, true, groupFinalScore g, uniqueUserCount g, now⟩ : VerifiedEntry) ∈
          (applyGroup now sid w acc x).verified ∧
        ∀ r' ∈ (applyGroup now sid w acc x).reports,
          r'.id ∈ g.map (fun r => r.id) → r'.is_verified = true) := by
    intro acc ⟨hmem, hmark⟩ x hx
    have hxne : ft ≠ x := fun h => hftnot (h ▸ hx)
    rw [applyGroup]
    split_ifs with hA hB
    · constructor
      · exact mem_upsertVerified_of_ne sid x _ _ now acc.verified _ hmem hxne
      · exact markGroupVerified_mono _ _ _ hmark
    · exact ⟨hmem, hmark⟩
    · exact ⟨hmem, hmark⟩
  refine foldl_invariant (applyGroup now sid w)
    (fun acc =>
      (⟨sid, ft, true, groupFinalScore g, uniqueUserCount g, now⟩ : VerifiedEntry) ∈
        acc.verified ∧
      ∀ r' ∈ acc.reports, r'.id ∈ g.map (fun r => r.id) → r'.is_verified = true)
    l₂ _ (fun x hx acc hacc => hP acc hacc x hx) ?_
  constructor
  · exact mem_upsertVerified_self sid ft _ _ now acc₁.verified
  · exact markGroupVerified_marks g acc₁.reports

/-- C3: a consensus run never creates or updates a verified entry for a
(station, fuel type) whose windowed group has fewer than
`MIN_REPORTS_FOR_CONSENSUS = 2` distinct submitters: the rows for that
key are exactly the rows the store already had. -/
theorem consensus_requires_distinct_users (now : ℝ) (sid ft : String) (st : DVEState)
    (hlt : uniqueUserCount (fuelGroup (consensusWindow now sid st.reports) ft) <
      DVE_CONFIG.MIN_REPORTS_FOR_CONSENSUS) :
    ((consensusRun now sid st).verified).filter
        (fun e => e.station_id == sid && e.fuel_type == ft) =
      st.verified.filter (fun e => e.station_id == sid && e.fuel_type == ft) := by
  set w := consensusWindow now sid st.reports with hw
  simp only [consensusRun]
  split_ifs with hlen
  · refine foldl_invariant (applyGroup now sid w)
      (fun acc => acc.verified.filter (fun e => e.station_id == sid && e.fuel_type == ft) =
        st.verified.filter (fun e => e.station_id == sid && e.fuel_type == ft))
      _ st (fun x _ acc hacc => ?_) rfl
    rw [applyGroup]
    split_ifs with hA hB
    · by_cases hxft : x = ft
      · subst hxft
        exact absurd hA (not_le.mpr hlt)
      · simp only
        rw [filter_upsertVerified_ne sid sid ft x hxft _ _ now acc.verified, hacc]
    · exact hacc
    · exact hacc
  · rfl

/-! ## Concrete fixtures for the consensus witnesses -/

noncomputable def stationA : Station := ⟨"s1", some 90, some 90⟩

noncomputable def repA : Report :=
  ⟨0, "s1", "u1", "Diesel", 90, 90, 0.5, 1, 1, 0.5, false, none, false, 0⟩

noncomputable def repB : Report :=
  ⟨1, "s1", "u2", "Diesel", 90, 90, 0.5, 1, 1, 0.5, false, none, false, 0⟩

noncomputable def repC : Report :=
  ⟨0, "s1", "u1", "Diesel", 90, 90, 0.5, 1, 1, 0.5, false, none, false, 0⟩

noncomputable def repD : Report :=
  ⟨1, "s1", "u1", "Diesel", 90, 90, 0.5, 1, 1, 0.5, false, none, false, 0⟩

noncomputable def stW : DVEState :=
  ⟨[stationA], [repA, repB], [⟨"u1", 0.5⟩, ⟨"u2", 0.5⟩], [], 2⟩

noncomputable def stD : DVEState :=
  ⟨[stationA], [repC, repD], [⟨"u1", 0.5⟩], [⟨"s1", "Diesel", true, 0.9, 5, 0⟩], 2⟩

theorem windowAB : consensusWindow 0 "s1" [repA, repB] = [repA, repB] := by
  norm_num [consensusWindow, repA, repB, DVE_CONFIG, List.filter]

theorem groupAB : fuelGroup [repA, repB] "Diesel" = [repA, repB] := by
  norm_num [fuelGroup, repA, repB, List.filter]

theorem uniqAB : uniqueUserCount [repA, repB] = 2 := by
  simp [uniqueUserCount, repA, repB, List.dedup_cons_of_not_mem]

theorem scoreAB : groupFinalScore [repA, repB] = 0.7 := by
  simp only [groupFinalScore, repA, repB, List.map_cons, List.map_nil, List.sum_cons,
    List.sum_nil, List.length_cons, List.length_nil]
  rw [min_eq_right] <;> norm_num [DVE_CONFIG]

theorem windowCD : consensusWindow 0 "s1" [repC, repD] = [repC, repD] := by
  norm_num [consensusWindow, repC, repD, DVE_CONFIG, List.filter]

theorem groupCD : fuelGroup [repC, repD] "Diesel" = [repC, repD] := by
  norm_num [fuelGroup, repC, repD, List.filter]

theorem uniqCD : uniqueUserCount [repC, repD] = 1 := by
  simp [uniqueUserCount, repC, repD, List.dedup_cons_of_mem]

/-- Witness for C2: two distinct users at the station report Diesel with
score `0.5` each; the group reaches consensus with final confidence
`min(1, 0.5 + 0.2) = 0.7 ≥ 0.4`, the verified entry is stored, and both
reports are marked verified. -/
theorem consensus_verifies_group_witness :
    DVE_CONFIG.MIN_REPORTS_FOR_CONSENSUS ≤
      uniqueUserCount (fuelGroup (consensusWindow 0 "s1" stW.reports) "Diesel") ∧
    DVE_CONFIG.VERIFICATION_THRESHOLD ≤
      groupFinalScore (fuelGroup (consensusWindow 0 "s1" stW.reports) "Diesel") ∧
    (⟨"s1", "Diesel", true,
        groupFinalScore (fuelGroup (consensusWindow 0 "s1" stW.reports) "Diesel"),
        uniqueUserCount (fuelGroup (consensusWindow 0 "s1" stW.reports) "Diesel"), 0⟩ :
      VerifiedEntry) ∈ (consensusRun 0 "s1" stW).verified ∧
    ∀ r' ∈ (consensusRun 0 "s1" stW).reports,
      r'.id ∈ (fuelGroup (consensusWindow 0 "s1" stW.reports) "Diesel").map (fun r => r.id) →
      r'.is_verified = true := by
  have hreps : stW.reports = [repA, repB] := rfl
  have h2 : DVE_CONFIG.MIN_REPORTS_FOR_CONSENSUS ≤
      uniqueUserCount (fuelGroup (consensusWindow 0 "s1" stW.reports) "Diesel") := by
    rw [hreps, windowAB, groupAB, uniqAB]
    norm_num [DVE_CONFIG]
  have hth : DVE_CONFIG.VERIFICATION_THRESHOLD ≤
      groupFinalScore (fuelGroup (consensusWindow 0 "s1" stW.reports) "Diesel") := by
    rw [hreps, windowAB, groupAB, scoreAB]
    norm_num [DVE_CONFIG]
  obtain ⟨hmem, hmark⟩ := consensus_verifies_group 0 "s1" "Diesel" stW h2 hth
  exact ⟨h2, hth, hmem, hmark⟩

/-- Witness for C3 (scenario D): one user submits twice for Diesel; the
group has a single distinct submitter, so the consensus run leaves the
verified rows for ("s1", Diesel) exactly as they were. -/
theorem consensus_requires_distinct_users_witness :
    uniqueUserCount (fuelGroup (consensusWindow 0 "s1" stD.reports) "Diesel") <
      DVE_CONFIG.MIN_REPORTS_FOR_CONSENSUS ∧
    ((consensusRun 0 "s1" stD).verified).filter
        (fun e => e.station_id == "s1" && e.fuel_type == "Diesel") =
      stD.verified.filter (fun e => e.station_id == "s1" && e.fuel_type == "Diesel") := by
  have hreps : stD.reports = [repC, repD] := rfl
  have hlt : uniqueUserCount (fuelGroup (consensusWindow 0 "s1" stD.reports) "Diesel") <
      DVE_CONFIG.MIN_REPORTS_FOR_CONSENSUS := by
    rw [hreps, windowCD, groupCD, uniqCD]
    norm_num [DVE_CONFIG]
  exact ⟨hlt, consensus_requires_distinct_users 0 "s1" "Diesel" stD hlt⟩

/-! ## Claim C1 -/

theorem consensusRun_reports_shape (now : ℝ) (sid : String) (st : DVEState) :
    ∀ r ∈ (consensusRun now sid st).reports,
      ∃ b : Bool, { r with is_verified := b } ∈ st.reports := by
  simp only [consensusRun]
  split_ifs with hlen
  · refine foldl_invariant (applyGroup now sid _)
      (fun acc => ∀ r ∈ acc.reports, ∃ b : Bool, { r with is_verified := b } ∈ st.reports)
      _ st (fun x _ acc hacc => ?_) (fun r hr => ⟨r.is_verified, hr⟩)
    rw [applyGroup]
    split_ifs with hA hB
    · intro r hr
      obtain ⟨r₀, hr₀mem, hr₀⟩ := List.mem_map.mp hr
      obtain ⟨b₀, hb₀⟩ := hacc r₀ hr₀mem
      by_cases hc :
          ((fuelGroup (consensusWindow now sid st.reports) x).map (fun g => g.id)).contains
            r₀.id = true
      · rw [if_pos hc] at hr₀
        subst hr₀
        exact ⟨b₀, hb₀⟩
      · rw [if_neg hc] at hr₀
        subst hr₀
        exact ⟨b₀, hb₀⟩
    · exact hacc
    · exact hacc
  · exact fun r hr => ⟨r.is_verified, hr⟩

theorem resolveTrust_bounds (uid : String) (rows : List TrustRow)
    (h : ∀ t ∈ rows, 0.1 ≤ t.trust_score ∧ t.trust_score ≤ 1) :
    0.1 ≤ (resolveTrust uid rows).1 ∧ (resolveTrust uid rows).1 ≤ 1 := by
  cases hf : rows.find? (fun t => t.anonymous_user_id == uid) with
  | none =>
    rw [resolveTrust, hf]
    norm_num [DVE_CONFIG]
  | some t =>
    rw [resolveTrust, hf]
    exact h t (List.mem_of_find?_eq_some hf)

theorem processSubmission_score (now : ℝ) (sid ft uid : String) (uLat uLon sLat sLon : ℝ)
    (st : DVEState)
    (hTrust : 0.1 ≤ (resolveTrust uid st.trustScores).1 ∧
      (resolveTrust uid st.trustScores).1 ≤ 1)
    (hFresh : ∀ r ∈ st.reports, r.id ≠ st.nextId) :
    ∀ r ∈ (processSubmission now sid ft uid uLat uLon sLat sLon st).2.reports,
      r.id = st.nextId →
      (r.is_rejected = false →
        r.dve_score = r.trust_score_at_submission * r.time_decay_factor * r.location_factor) ∧
      0 ≤ r.dve_score ∧ r.dve_score ≤ 1 := by
  intro r hr hid
  simp only [processSubmission] at hr
  obtain ⟨b, hb⟩ := consensusRun_reports_shape now sid _ r hr
  simp only at hb
  rcases List.mem_append.mp hb with hL | hR
  · exact absurd hid (hFresh { r with is_verified := b } hL)
  · have hR' := List.mem_singleton.mp hR
    have h1 : r.dve_score =
        (if (calculateLocationFactor uLat uLon sLat sLon).isValid = true then
          (resolveTrust uid st.trustScores).1 * calculateTimeDecay now now *
            (calculateLocationFactor uLat uLon sLat sLon).factor
        else 0) := congrArg Report.dve_score hR'
    have h2 : r.is_rejected = !(calculateLocationFactor uLat uLon sLat sLon).isValid :=
      congrArg Report.is_rejected hR'
    have h3 : r.trust_score_at_submission = (resolveTrust uid st.trustScores).1 :=
      congrArg Report.trust_score_at_submission hR'
    have h4 : r.time_decay_factor = calculateTimeDecay now now :=
      congrArg Report.time_decay_factor hR'
    have h5 : r.location_factor = (calculateLocationFactor uLat uLon sLat sLon).factor :=
      congrArg Report.location_factor hR'
    obtain ⟨hf0, hf1, _⟩ := locationFactor_bounds uLat uLon sLat sLon
    cases hv : (calculateLocationFactor uLat uLon sLat sLon).isValid with
    | false =>
      rw [hv] at h1 h2
      simp only [Bool.false_eq_true, if_false, Bool.not_false] at h1 h2
      refine ⟨fun hrej => absurd (h2 ▸ hrej) (by simp), ?_⟩
      rw [h1]
      norm_num
    | true =>
      rw [hv] at h1 h2
      simp only [if_true, Bool.not_true] at h1 h2
      refine ⟨fun _ => by rw [h1, h3, h4, h5], ?_⟩
      rw [h1, calculateTimeDecay_self, mul_one]
      constructor
      · exact mul_nonneg (le_trans (by norm_num) hTrust.1) hf0
      · exact mul_le_one₀ hTrust.2 hf0 hf1

/-- C1: under the precondition that every stored trust score lies in
`[MIN_TRUST_SCORE, MAX_TRUST_SCORE] = [0.1, 1.0]` (and report ids are
fresh), the report persisted by a submission satisfies: if it was not
rejected, its `dve_score` equals
`trust_score_at_submission × time_decay_factor × location_factor`, and in
every case (accepted or rejected) its `dve_score` lies in `[0, 1]`. -/
theorem score_product_and_bounds (now : ℝ) (req : SubmitRequest) (st : DVEState)
    (hTrust : ∀ t ∈ st.trustScores, 0.1 ≤ t.trust_score ∧ t.trust_score ≤ 1)
    (hFresh : ∀ r ∈ st.reports, r.id ≠ st.nextId) :
    ∀ r ∈ (submitReport now req st).2.reports, r.id = st.nextId →
      (r.is_rejected = false →
        r.dve_score = r.trust_score_at_submission * r.time_decay_factor * r.location_factor) ∧
      0 ≤ r.dve_score ∧ r.dve_score ≤ 1 := by
  intro r hr hid
  rw [submitReport] at hr
  by_cases hval : (strFalsy req.station_id || strFalsy req.fuel_type ||
      strFalsy req.anonymous_user_id || req.user_lat.isNone || req.user_lon.isNone) = true
  · rw [if_pos hval] at hr
    exact absurd hid (hFresh r hr)
  · rw [if_neg hval] at hr
    cases hfind : st.stations.find? (fun s => s.id == req.station_id.getD "") with
    | none =>
      rw [hfind] at hr
      exact absurd hid (hFresh r hr)
    | some station =>
      rw [hfind] at hr
      dsimp only at hr
      by_cases hcoord : (!coordTruthy station.lat || !coordTruthy station.lon) = true
      · rw [if_pos hcoord] at hr
        exact absurd hid (hFresh r hr)
      · rw [if_neg hcoord] at hr
        exact processSubmission_score now (req.station_id.getD "") (req.fuel_type.getD "")
          (req.anonymous_user_id.getD "") (req.user_lat.getD 0) (req.user_lon.getD 0)
          (station.lat.getD 0) (station.lon.getD 0) st
          (resolveTrust_bounds _ _ hTrust) hFresh r hr hid

/-- Witness for C1: a first-time submitter at the station's exact
coordinates, against an empty store holding one station. -/
theorem score_product_and_bounds_witness :
    (∀ t ∈ (⟨[stationA], [], [], [], 0⟩ : DVEState).trustScores,
      0.1 ≤ t.trust_score ∧ t.trust_score ≤ 1) ∧
    (∀ r ∈ (⟨[stationA], [], [], [], 0⟩ : DVEState).reports, r.id ≠ 0) ∧
    ∀ r ∈ (submitReport 0 ⟨some "s1", some "Diesel", some "u1", some 90, some 90⟩
        ⟨[stationA], [], [], [], 0⟩).2.reports, r.id = 0 →
      (r.is_rejected = false →
        r.dve_score = r.trust_score_at_submission * r.time_decay_factor * r.location_factor) ∧
      0 ≤ r.dve_score ∧ r.dve_score ≤ 1 :=
  ⟨by simp, by simp,
    score_product_and_bounds 0 ⟨some "s1", some "Diesel", some "u1", some 90, some 90⟩
      ⟨[stationA], [], [], [], 0⟩ (by simp) (by simp)⟩

/-! ## Claim C6 -/

theorem locationFactor_distance (uLat uLon sLat sLon : ℝ) :
    (calculateLocationFactor uLat uLon sLat sLon).distance =
      calculateDistance uLat uLon sLat sLon := by
  rw [calculateLocationFactor]
  split_ifs <;> rfl

theorem markGroupVerified_ids (g reps : List Report) :
    (markGroupVerified g reps).map (fun r => r.id) = reps.map (fun r => r.id) := by
  rw [markGroupVerified, List.map_map]
  apply List.map_congr_left
  intro r _
  by_cases hc : ((g.map (fun x => x.id)).contains r.id) = true
  · simp only [Function.comp_apply, if_pos hc]
  · simp only [Function.comp_apply, if_neg hc]

theorem consensusRun_report_ids (now : ℝ) (sid : String) (st : DVEState) :
    ((consensusRun now sid st).reports).map (fun r => r.id) =
      st.reports.map (fun r => r.id) := by
  simp only [consensusRun]
  split_ifs with hlen
  · refine foldl_invariant (applyGroup now sid _)
      (fun acc => acc.reports.map (fun r => r.id) = st.reports.map (fun r => r.id))
      _ st (fun x _ acc hacc => ?_) rfl
    rw [applyGroup]
    split_ifs with hA hB
    · simp only
      rw [markGroupVerified_ids, hacc]
    · exact hacc
    · exact hacc
  · rfl

theorem toFixed2_three : toFixed2 3 = "3.00" := by
  have h3 : ⌊(3 : ℝ) * 100 + 1 / 2⌋ = 300 := by
    rw [Int.floor_eq_iff]
    norm_num
  rw [toFixed2, h3]
  rfl

/-- C6: a submission whose location check is invalid (distance beyond
`MAX_DISTANCE_KM`) is persisted as a rejected report with
`is_rejected = true`, `dve_score = 0`, and a rejection reason containing
the measured distance rendered by `toFixed(2)` (`"3.00km"` for a 3 km
distance); the caller receives a successful `ok` response carrying the
rejection flag and reason, not an error status. -/
theorem rejected_submission (now : ℝ) (st : DVEState) (sid ft uid : String)
    (uLat uLon sLat sLon : ℝ) (station : Station)
    (hsid : sid ≠ "") (hft : ft ≠ "") (huid : uid ≠ "")
    (hfind : st.stations.find? (fun s => s.id == sid) = some station)
    (hlat : station.lat = some sLat) (hlon : station.lon = some sLon)
    (hlat0 : sLat ≠ 0) (hlon0 : sLon ≠ 0)
    (hinvalid : (calculateLocationFactor uLat uLon sLat sLon).isValid = false)
    (hFresh : ∀ r ∈ st.reports, r.id ≠ st.nextId) :
    ((submitReport now ⟨some sid, some ft, some uid, some uLat, some uLon⟩ st).1 =
      SubmitResponse.ok st.nextId
        { score := 0, trustScore := (resolveTrust uid st.trustScores).1,
          timeDecay := calculateTimeDecay now now, locationFactor := 0, isRejected := true,
          rejectionReason :=
            some (rejectionMessage (calculateDistance uLat uLon sLat sLon)) }) ∧
    (∀ r ∈ (submitReport now ⟨some sid, some ft, some uid, some uLat, some uLon⟩ st).2.reports,
      r.id = st.nextId →
      r.is_rejected = true ∧ r.dve_score = 0 ∧
      r.rejection_reason =
        some (rejectionMessage (calculateDistance uLat uLon sLat sLon))) ∧
    (∃ r ∈ (submitReport now ⟨some sid, some ft, some uid, some uLat, some uLon⟩ st).2.reports,
      r.id = st.nextId) ∧
    toFixed2 3 = "3.00" := by
  rw [submitReport_found now st sid ft uid uLat uLon station sLat sLon hsid hft huid hfind
    hlat hlon hlat0 hlon0]
  have hfac : (calculateLocationFactor uLat uLon sLat sLon).factor = 0 :=
    (locationFactor_bounds uLat uLon sLat sLon).2.2 hinvalid
  refine ⟨?_, ?_, ?_, toFixed2_three⟩
  · simp only [processSubmission]
    rw [hinvalid, hfac, locationFactor_distance]
    simp only [Bool.false_eq_true, if_false, Bool.not_false]
  · intro r hr hid
    simp only [processSubmission] at hr
    obtain ⟨b, hb⟩ := consensusRun_reports_shape now sid _ r hr
    simp only at hb
    rcases List.mem_append.mp hb with hL | hR
    · exact absurd hid (hFresh { r with is_verified := b } hL)
    · have hR' := List.mem_singleton.mp hR
      have h1 : r.dve_score =
          (if (calculateLocationFactor uLat uLon sLat sLon).isValid = true then
            (resolveTrust uid st.trustScores).1 * calculateTimeDecay now now *
              (calculateLocationFactor uLat uLon sLat sLon).factor
          else 0) := congrArg Report.dve_score hR'
      have h2 : r.is_rejected = !(calculateLocationFactor uLat uLon sLat sLon).isValid :=
        congrArg Report.is_rejected hR'
      have h6 : r.rejection_reason =
          (if (calculateLocationFactor uLat uLon sLat sLon).isValid = true then none
          else some (rejectionMessage (calculateLocationFactor uLat uLon sLat sLon).distance)) :=
        congrArg Report.rejection_reason hR'
      rw [hinvalid] at h1 h2 h6
      rw [locationFactor_distance] at h6
      simp only [Bool.false_eq_true, if_false, Bool.not_false] at h1 h2 h6
      exact ⟨h2, h1, h6⟩
  · simp only [processSubmission]
    have hidmem : st.nextId ∈
        ((consensusRun now sid
          { st with trustScores := (resolveTrust uid st.trustScores).2,
                    reports := st.reports ++
                      [{ id := st.nextId, station_id := sid, anonymous_user_id := uid,
                          fuel_type := ft, user_lat := uLat, user_lon := uLon,
                          trust_score_at_submission := (resolveTrust uid st.trustScores).1,
                          time_decay_factor := calculateTimeDecay now now,
                          location_factor := (calculateLocationFactor uLat uLon sLat sLon).factor,
                          dve_score :=
                            if (calculateLocationFactor uLat uLon sLat sLon).isValid = true then
                              (resolveTrust uid st.trustScores).1 * calculateTimeDecay now now *
                                (calculateLocationFactor uLat uLon sLat sLon).factor
                            else 0,
                          is_rejected := !(calculateLocationFactor uLat uLon sLat sLon).isValid,
                          rejection_reason :=
                            if (calculateLocationFactor uLat uLon sLat sLon).isValid = true then
                              none
                            else some (rejectionMessage
                              (calculateLocationFactor uLat uLon sLat sLon).distance),
                          is_verified := false, timestamp := now }],
                    nextId := st.nextId + 1 }).reports).map (fun r => r.id) := by
      rw [consensusRun_report_ids]
      simp
    obtain ⟨r, hrmem, hrid⟩ := List.mem_map.mp hidmem
    exact ⟨r, hrmem, hrid⟩

/-- Witness for C6: a submitter on the equator reporting a station at the
pole (haversine distance `6371·π/2 ≫ 2` km) is rejected with score `0`
and a reason string carrying the formatted distance, inside a successful
response; and `toFixed2` prints `3` as `"3.00"`. -/
theorem rejected_submission_witness :
    (calculateLocationFactor 0 90 90 90).isValid = false ∧
    ((submitReport 0 ⟨some "s1", some "Diesel", some "u3", some 0, some 90⟩
        ⟨[stationA], [], [], [], 0⟩).1 =
      SubmitResponse.ok 0
        { score := 0, trustScore := (resolveTrust "u3" []).1,
          timeDecay := calculateTimeDecay 0 0, locationFactor := 0, isRejected := true,
          rejectionReason := some (rejectionMessage (calculateDistance 0 90 90 90)) }) ∧
    (∀ r ∈ (submitReport 0 ⟨some "s1", some "Diesel", some "u3", some 0, some 90⟩
        ⟨[stationA], [], [], [], 0⟩).2.reports, r.id = 0 →
      r.is_rejected = true ∧ r.dve_score = 0 ∧
      r.rejection_reason = some (rejectionMessage (calculateDistance 0 90 90 90))) ∧
    (∃ r ∈ (submitReport 0 ⟨some "s1", some "Diesel", some "u3", some 0, some 90⟩
        ⟨[stationA], [], [], [], 0⟩).2.reports, r.id = 0) ∧
    toFixed2 3 = "3.00" := by
  have hinv : (calculateLocationFactor 0 90 90 90).isValid = false := by
    rw [calculateLocationFactor_far]
  obtain ⟨hresp, hrep, hex, hfmt⟩ :=
    rejected_submission 0 ⟨[stationA], [], [], [], 0⟩ "s1" "Diesel" "u3" 0 90 90 90 stationA
      (by decide) (by decide) (by decide) rfl rfl rfl (by norm_num) (by norm_num) hinv
      (by simp)
  exact ⟨hinv, hresp, hrep, hex, hfmt⟩

/-! ## Claim C8 -/

noncomputable def repAv : Report :=
  ⟨0, "s1", "u1", "Diesel", 90, 90, 0.5, 1, 1, 0.5, false, none, true, 0⟩

noncomputable def repBv : Report :=
  ⟨1, "s1", "u2", "Diesel", 90, 90, 0.5, 1, 1, 0.5, false, none, true, 0⟩

noncomputable def entry0 : VerifiedEntry := ⟨"s1", "Diesel", true, 0.7, 2, 0⟩

/-- Store after two users verified Diesel at station `s1` at time `0`. -/
noncomputable def stPre : DVEState :=
  ⟨[stationA], [repAv, repBv], [⟨"u1", 0.5⟩, ⟨"u2", 0.5⟩], [entry0], 2⟩

theorem uniqAvBv : uniqueUserCount [repAv, repBv] = 2 := by
  simp [uniqueUserCount, repAv, repBv, List.dedup_cons_of_not_mem]

theorem scoreAvBv : groupFinalScore [repAv, repBv] = 0.7 := by
  simp only [groupFinalScore, repAv, repBv, List.map_cons, List.map_nil, List.sum_cons,
    List.sum_nil, List.length_cons, List.length_nil]
  rw [min_eq_right] <;> norm_num [DVE_CONFIG]

theorem consensusRun_stPre_reject (st : DVEState)
    (hwin : consensusWindow 1 "s1" st.reports = [repAv, repBv])
    (hver : st.verified = [entry0]) :
    (consensusRun 1 "s1" st).verified = [⟨"s1", "Diesel", true, 0.7, 2, 1⟩] := by
  simp only [consensusRun, hwin]
  rw [if_pos (show DVE_CONFIG.MIN_REPORTS_FOR_CONSENSUS ≤ [repAv, repBv].length from
    Nat.le_refl 2)]
  have hfts : (([repAv, repBv].map (fun r => r.fuel_type)).dedup) = ["Diesel"] := by
    simp [repAv, repBv, List.dedup_cons_of_mem]
  rw [hfts, List.foldl_cons, List.foldl_nil]
  simp only [applyGroup]
  have hgroup : fuelGroup [repAv, repBv] "Diesel" = [repAv, repBv] := by
    norm_num [fuelGroup, repAv, repBv, List.filter]
  rw [hgroup, if_pos (by rw [uniqAvBv]; exact Nat.le_refl 2),
    if_pos (by rw [scoreAvBv]; norm_num [DVE_CONFIG])]
  dsimp only
  rw [hver, scoreAvBv, uniqAvBv, upsertVerified, if_pos (by simp [entry0])]
  simp [entry0]

theorem consensusWindow_append_rejected (now : ℝ) (sid : String) (reps : List Report)
    (r : Report) (hrej : r.is_rejected = true) :
    consensusWindow now sid (reps ++ [r]) = consensusWindow now sid reps := by
  rw [consensusWindow, consensusWindow, List.filter_append]
  have hnil : List.filter (fun x => x.station_id == sid && !x.is_rejected &&
      decide (now - DVE_CONFIG.MAX_REPORT_AGE_HOURS ≤ x.timestamp)) [r] = [] := by
    simp [List.filter, hrej]
  rw [hnil, List.append_nil]

/-- Counterexample for C8: with two verified Diesel reports and a
verified entry last verified at time `0` in the store, a third user's
out-of-range (rejected) submission at time `1` still triggers the
consensus run, which rewrites the verified entry with
`last_verified_at = 1` — the entry does change. -/
theorem rejected_submission_updates_entry :
    (submitReport 1 ⟨some "s1", some "Diesel", some "u3", some 0, some 90⟩ stPre).1 =
      SubmitResponse.ok 2
        ⟨0, 0.5, 1, 0, true, some (rejectionMessage (6371 * Real.pi / 2))⟩ ∧
    (submitReport 1 ⟨some "s1", some "Diesel", some "u3", some 0, some 90⟩ stPre).2.verified =
      [⟨"s1", "Diesel", true, 0.7, 2, 1⟩] ∧
    stPre.verified = [⟨"s1", "Diesel", true, 0.7, 2, 0⟩] ∧
    ¬ ((submitReport 1 ⟨some "s1", some "Diesel", some "u3", some 0, some 90⟩
        stPre).2.verified = stPre.verified) := by
  have hsub : submitReport 1 ⟨some "s1", some "Diesel", some "u3", some 0, some 90⟩ stPre =
      processSubmission 1 "s1" "Diesel" "u3" 0 90 90 90 stPre :=
    submitReport_found 1 stPre "s1" "Diesel" "u3" 0 90 stationA 90 90
      (by decide) (by decide) (by decide) rfl rfl rfl (by norm_num) (by norm_num)
  have hresp : (processSubmission 1 "s1" "Diesel" "u3" 0 90 90 90 stPre).1 =
      SubmitResponse.ok 2
        ⟨0, 0.5, 1, 0, true, some (rejectionMessage (6371 * Real.pi / 2))⟩ := by
    dsimp only [processSubmission]
    rw [calculateLocationFactor_far, calculateTimeDecay_self]
    rfl
  have hver : (processSubmission 1 "s1" "Diesel" "u3" 0 90 90 90 stPre).2.verified =
      [⟨"s1", "Diesel", true, 0.7, 2, 1⟩] := by
    dsimp only [processSubmission]
    apply consensusRun_stPre_reject
    · show consensusWindow 1 "s1" ([repAv, repBv] ++ [_]) = [repAv, repBv]
      rw [consensusWindow_append_rejected]
      · norm_num [consensusWindow, repAv, repBv, DVE_CONFIG, List.filter]
      · show (!(calculateLocationFactor 0 90 90 90).isValid) = true
        rw [calculateLocationFactor_far]
        rfl
    · rfl
  refine ⟨hsub ▸ hresp, hsub ▸ hver, rfl, ?_⟩
  intro hcontra
  rw [hsub, hver] at hcontra
  have h2 : ([(⟨"s1", "Diesel", true, 0.7, 2, 1⟩ : VerifiedEntry)]) = [entry0] := hcontra
  have h10 : (1 : ℝ) = 0 :=
    congrArg VerifiedEntry.last_verified_at (List.cons_eq_cons.mp h2).1
  norm_num at h10

theorem foldl_applyGroup_verified_congr (now : ℝ) (sid : String) (w : List Report)
    (fts : List String) :
    ∀ a b : DVEState, a.verified = b.verified →
      (fts.foldl (applyGroup now sid w) a).verified =
        (fts.foldl (applyGroup now sid w) b).verified := by
  induction fts with
  | nil => exact fun a b h => h
  | cons x t ih =>
    intro a b h
    rw [List.foldl_cons, List.foldl_cons]
    apply ih
    simp only [applyGroup]
    split_ifs with hA hB
    · dsimp only
      rw [h]
    · exact h
    · exact h

theorem consensusRun_verified_congr (now : ℝ) (sid : String) (st₁ st₂ : DVEState)
    (hwin : consensusWindow now sid st₁.reports = consensusWindow now sid st₂.reports)
    (hver : st₁.verified = st₂.verified) :
    (consensusRun now sid st₁).verified = (consensusRun now sid st₂).verified := by
  simp only [consensusRun]
  rw [hwin]
  split_ifs with h
  · exact foldl_applyGroup_verified_congr now sid _ _ st₁ st₂ hver
  · exact hver

/-- C8 (amended): the consensus engine runs after every submission,
rejected or not; but a rejected submission's report is excluded from the
consensus window by the `is_rejected` filter, so the submission changes
the verified data exactly as a consensus re-run over the previously
stored reports would — the rejected report itself contributes nothing. -/
theorem rejected_submission_consensus_frame (now : ℝ) (st : DVEState) (sid ft uid : String)
    (uLat uLon sLat sLon : ℝ) (station : Station)
    (hsid : sid ≠ "") (hft : ft ≠ "") (huid : uid ≠ "")
    (hfind : st.stations.find? (fun s => s.id == sid) = some station)
    (hlat : station.lat = some sLat) (hlon : station.lon = some sLon)
    (hlat0 : sLat ≠ 0) (hlon0 : sLon ≠ 0)
    (hinvalid : (calculateLocationFactor uLat uLon sLat sLon).isValid = false) :
    (submitReport now ⟨some sid, some ft, some uid, some uLat, some uLon⟩ st).2.verified =
      (consensusRun now sid st).verified := by
  rw [submitReport_found now st sid ft uid uLat uLon station sLat sLon hsid hft huid hfind
    hlat hlon hlat0 hlon0]
  dsimp only [processSubmission]
  apply consensusRun_verified_congr
  · dsimp only
    apply consensusWindow_append_rejected
    show (!(calculateLocationFactor uLat uLon sLat sLon).isValid) = true
    rw [hinvalid]
    rfl
  · rfl

/-- Witness for the amended C8 at the concrete counterexample store: the
rejected out-of-range submission leaves the verified rows equal to a bare
consensus re-run over the pre-existing reports. -/
theorem rejected_submission_consensus_frame_witness :
    (calculateLocationFactor 0 90 90 90).isValid = false ∧
    (submitReport 1 ⟨some "s1", some "Diesel", some "u3", some 0, some 90⟩ stPre).2.verified =
      (consensusRun 1 "s1" stPre).verified := by
  have hinv : (calculateLocationFactor 0 90 90 90).isValid = false := by
    rw [calculateLocationFactor_far]
  exact ⟨hinv,
    rejected_submission_consensus_frame 1 stPre "s1" "Diesel" "u3" 0 90 90 90 stationA
      (by decide) (by decide) (by decide) rfl rfl rfl (by norm_num) (by norm_num) hinv⟩

/-! ## Claim C9 -/

/-- A store with 101 distinct persisted reports. -/
noncomputable def bigState : DVEState :=
  ⟨[], (List.range 101).map
    (fun n => ⟨n, "s1", "u1", "Diesel", 0, 0, 0.5, 1, 1, 0.5, false, none, false, 0⟩),
    [], [], 101⟩

/-- Counterexample for C9: `get_admin_data` limits the report projection
to 100 rows, so in a store with 101 reports some persisted report is
missing from the returned array. -/
theorem admin_data_omits_report :
    ¬ (∀ r ∈ bigState.reports, r ∈ (getAdminData bigState).reports) := by
  intro h
  have hsub : bigState.reports ⊆ (getAdminData bigState).reports := fun x hx => h x hx
  have hnodup : bigState.reports.Nodup := by
    refine List.Nodup.map ?_ (List.nodup_range 101)
    intro a b hab
    exact congrArg Report.id hab
  have hlen1 : bigState.reports.length = 101 := by
    simp [bigState]
  have hlen2 : (getAdminData bigState).reports.length ≤ 100 := by
    show ((bigState.reports.mergeSort _).take 100).length ≤ 100
    rw [List.length_take]
    exact min_le_left _ _
  have hle := (List.subperm_of_subset hnodup hsub).length_le
  omega

/-- C9 (amended): `get_admin_data` returns every stored trust-score row,
every Verified Fuel Entry, and a config object echoing the tunable
constants; its reports array is the 100 most recent reports (timestamp
descending, limit 100), so every persisted report appears in it whenever
the store holds at most 100 reports. -/
theorem admin_data_projection (st : DVEState) :
    (getAdminData st).trustScores = st.trustScores ∧
    (getAdminData st).verifiedData = st.verified ∧
    (getAdminData st).config = DVE_CONFIG ∧
    (st.reports.length ≤ 100 → ∀ r ∈ st.reports, r ∈ (getAdminData st).reports) := by
  refine ⟨rfl, rfl, rfl, fun hlen r hr => ?_⟩
  show r ∈ (st.reports.mergeSort _).take 100
  rw [List.take_of_length_le (by rw [List.length_mergeSort]; exact hlen)]
  exact List.mem_mergeSort.mpr hr

/-- Witness for the amended C9 at a one-report store. -/
theorem admin_data_projection_witness :
    (getAdminData ⟨[], [repA], [⟨"u1", 0.5⟩], [entry0], 1⟩).trustScores = [⟨"u1", 0.5⟩] ∧
    (getAdminData ⟨[], [repA], [⟨"u1", 0.5⟩], [entry0], 1⟩).verifiedData = [entry0] ∧
    (getAdminData ⟨[], [repA], [⟨"u1", 0.5⟩], [entry0], 1⟩).config = DVE_CONFIG ∧
    ([repA] : List Report).length ≤ 100 ∧
    ∀ r ∈ ([repA] : List Report),
      r ∈ (getAdminData ⟨[], [repA], [⟨"u1", 0.5⟩], [entry0], 1⟩).reports := by
  obtain ⟨h1, h2, h3, h4⟩ := admin_data_projection ⟨[], [repA], [⟨"u1", 0.5⟩], [entry0], 1⟩
  exact ⟨h1, h2, h3, by norm_num, h4 (by norm_num)⟩

end FuelSync
